import Mathlib

/-!
Verification of the three-tier plagiarism-detection pipeline.

Shallow embedding of `backend/app.py`: the text normalizer
(`preprocess_text`), the Tier 1 TF-IDF document scorer
(`level1_tfidf_similarity`), the Tier 2 sentence-alignment scorer
(`level2_sentence_level`), the Tier 3 semantic-alignment scorer
(`level3_semantic_similarity`) and the `/check-plagiarism` endpoint
(`check_plagiarism`).

External black boxes are modelled as parameters:
* the NLTK sentence splitter `sent_tokenize` becomes a parameter
  `tok : String → List String`;
* the per-pair TF-IDF scorer used inside Tier 2 (the `try` block that
  can fail) becomes `sim : String → String → Option ℚ`, `none`
  standing for a raised exception that the `except: continue` swallows;
* the sentence-transformer model becomes
  `Option (String → String → ℚ)`: `none` when the model failed to load,
  otherwise the similarity of two sentences obtained from the encoder
  and cosine similarity.

The Tier 1 scorer is embedded concretely: sklearn's `TfidfVectorizer`
(default settings: token pattern of word characters of length ≥ 2,
smoothed idf `ln((1+n)/(1+df))+1`, l2-normalised rows) followed by
`cosine_similarity`, over the reals.
-/

/- Batteries marks the `Rat` arithmetic operations `@[irreducible]`, which
blocks kernel evaluation of concrete similarity computations; restore the
default reducibility so that `decide` can evaluate the model on concrete
inputs. -/
attribute [local semireducible] Rat.add Rat.mul Rat.sub Rat.inv

/-- Membership in Python's `string.punctuation`, which is exactly the four
ASCII punctuation ranges 33–47, 58–64, 91–96 and 123–126. -/
def isPyPunct (c : Char) : Bool :=
  (33 ≤ c.toNat && c.toNat ≤ 47) || (58 ≤ c.toNat && c.toNat ≤ 64) ||
  (91 ≤ c.toNat && c.toNat ≤ 96) || (123 ≤ c.toNat && c.toNat ≤ 126)

/-- Maximal runs of characters satisfying `p`, the separators (characters
not satisfying `p`) being dropped.  With `p = not whitespace` this is
Python's `str.split()`; with `p = word character` it is the run extraction
done by sklearn's token pattern. -/
def runsBy (p : Char → Bool) (l : List Char) : List (List Char) :=
  match l with
  | [] => []
  | c :: cs =>
    if p c then
      (c :: cs.takeWhile p) :: runsBy p (cs.dropWhile p)
    else
      runsBy p cs
termination_by l.length
decreasing_by
  · simp only [List.length_cons]
    exact Nat.lt_succ_of_le (List.dropWhile_sublist p).length_le
  · simp

/-- Python `str.split()` on a character list: maximal whitespace-free runs. -/
def pyWords (l : List Char) : List (List Char) :=
  runsBy (fun c => !c.isWhitespace) l

/-- Python `' '.join(ws)` on character lists. -/
def pyUnwords : List (List Char) → List Char
  | [] => []
  | [w] => w
  | w :: ws => w ++ ' ' :: pyUnwords ws

/-- `preprocess_text` from `app.py`: lowercase, remove every character of
`string.punctuation`, split on whitespace and re-join the words with single
spaces (which also trims leading/trailing whitespace). -/
def preprocess_text (s : String) : String :=
  String.mk (pyUnwords (pyWords ((s.data.map Char.toLower).filter (fun c => !isPyPunct c))))

/-- Python `str.strip()`: remove leading and trailing whitespace. -/
def pyStrip (s : String) : String :=
  String.mk (((s.data.dropWhile Char.isWhitespace).reverse.dropWhile
    Char.isWhitespace).reverse)

/-- A word character for sklearn's default token pattern `\b\w\w+\b`:
alphanumeric or underscore. -/
def isWordChar (c : Char) : Bool :=
  c.isAlphanum || c = '_'

/-- sklearn's default tokenizer: maximal runs of word characters, keeping
only tokens of length at least 2. -/
def sklearnTokenize (s : String) : List String :=
  ((runsBy isWordChar s.data).filter (fun w => 2 ≤ w.length)).map String.mk

/-! ## Tier 1: `level1_tfidf_similarity` -/

/-- Result record of `level1_tfidf_similarity`.  `explanation` is present on
the success branch, `error` on the exception branch. -/
structure Tier1Result where
  method : String
  similarity_percentage : ℝ
  explanation : Option String
  error : Option String

/-- Dot product of two vectors given as lists. -/
def dotR (u v : List ℝ) : ℝ := (List.zipWith (· * ·) u v).sum

/-- Euclidean norm. -/
noncomputable def l2norm (v : List ℝ) : ℝ := Real.sqrt (dotR v v)

/-- sklearn row normalisation (`normalize` with the l2 norm): rows of norm
zero are returned unchanged. -/
noncomputable def l2normalize (v : List ℝ) : List ℝ :=
  if l2norm v = 0 then v else v.map (· / l2norm v)

/-- sklearn `cosine_similarity` of two rows: it l2-normalises both inputs
(zero rows staying zero) and takes the dot product. -/
noncomputable def cosineSimilarity (u v : List ℝ) : ℝ :=
  dotR (l2normalize u) (l2normalize v)

/-- The vocabulary sklearn builds when fitting on the two token lists:
the distinct tokens in sorted order. -/
def vocabList (tok1 tok2 : List String) : List String :=
  List.insertionSort (· ≤ ·) (tok1 ++ tok2).dedup

/-- Document frequency of a term over the two-document corpus. -/
def docFreq (tok1 tok2 : List String) (w : String) : ℕ :=
  (if w ∈ tok1 then 1 else 0) + (if w ∈ tok2 then 1 else 0)

/-- sklearn smoothed idf over a corpus of `n = 2` documents:
`ln((1+n)/(1+df)) + 1`. -/
noncomputable def idf (tok1 tok2 : List String) (w : String) : ℝ :=
  Real.log ((1 + 2) / (1 + (docFreq tok1 tok2 w : ℝ))) + 1

/-- Unnormalised tf-idf row of the document with tokens `toks`, over the
vocabulary fitted on `tok1`, `tok2`. -/
noncomputable def tfidfRawRow (tok1 tok2 toks : List String) : List ℝ :=
  (vocabList tok1 tok2).map (fun w => (toks.count w : ℝ) * idf tok1 tok2 w)

/-- A row of `fit_transform`'s output: the tf-idf row, l2-normalised
(`TfidfVectorizer` default `norm='l2'`). -/
noncomputable def tfidfVector (tok1 tok2 toks : List String) : List ℝ :=
  l2normalize (tfidfRawRow tok1 tok2 toks)

/-- Python `round(x, 2)` on the reals.  (Python uses banker's rounding on
floats; `round` here rounds half upwards.  The two differ only at exact
half-cent values, which none of the properties proved below go through.) -/
noncomputable def pyRound2R (x : ℝ) : ℝ := ((round (x * 100) : ℤ) : ℝ) / 100

/-- `level1_tfidf_similarity` from `app.py`: preprocess both texts, fit a
`TfidfVectorizer` on the pair, take the cosine similarity of the two rows
and surface it as a percentage rounded to 2 decimals.  `fit_transform`
raises `ValueError: empty vocabulary` exactly when neither document
contributes a token; the `except` branch then returns a zero score with an
error field. -/
noncomputable def level1_tfidf_similarity (text1 text2 : String) : Tier1Result :=
  let tok1 := sklearnTokenize (preprocess_text text1)
  let tok2 := sklearnTokenize (preprocess_text text2)
  if tok1 ++ tok2 = [] then
    { method := "TF-IDF + Cosine Similarity", similarity_percentage := 0,
      explanation := none, error := some "empty vocabulary" }
  else
    let similarity := cosineSimilarity (tfidfVector tok1 tok2 tok1) (tfidfVector tok1 tok2 tok2)
    { method := "TF-IDF + Cosine Similarity",
      similarity_percentage := pyRound2R (similarity * 100),
      explanation := some "Measures word overlap and frequency similarity",
      error := none }

/-! ## Tier 2: `level2_sentence_level` -/

/-- Python `round(x, 2)` on the rationals (used for the per-sentence
percentages of Tiers 2 and 3).  (Python uses banker's rounding on floats;
`round` here rounds half upwards; the difference is immaterial to the
properties proved below.) -/
def pyRound2 (x : ℚ) : ℚ := ((round (x * 100) : ℤ) : ℚ) / 100

/-- One entry of `plagiarized_sentences`. -/
structure Match2 where
  sentence : String
  similarity : ℚ
  matching_sentence : String
  position : ℕ
deriving DecidableEq, Repr

/-- Result record of `level2_sentence_level`.  The zero-sentence early
return carries no `threshold` key, hence the `Option`. -/
structure Tier2Result where
  method : String
  plagiarized_sentences : List Match2
  total_sentences : ℕ
  plagiarized_count : ℕ
  threshold : Option ℚ
  error : Option String
deriving DecidableEq, Repr

/-- The inner loop of `level2_sentence_level` for one sentence of document
A (already preprocessed as `ps1`): scan the sentences of document B,
skipping those of trimmed length < 10, score each remaining one against
`ps1` (a `none` score is the vectorizer raising, swallowed by
`except: continue`), and keep the best score together with the raw
sentence attaining it, a strictly greater score being required to replace
the incumbent.  Starts from `max_similarity = 0`, `matching_sentence = ""`. -/
def bestMatchStep (sim : String → String → Option ℚ) (ps1 : String)
    (acc : ℚ × String) (sent2 : String) : ℚ × String :=
  if (pyStrip sent2).length < 10 then acc
  else
    match sim ps1 (preprocess_text sent2) with
    | none => acc
    | some s => if s > acc.1 then (s, sent2) else acc

def bestMatch (sim : String → String → Option ℚ) (ps1 : String)
    (sentences2 : List String) : ℚ × String :=
  sentences2.foldl (bestMatchStep sim ps1) (0, "")

/-- `level2_sentence_level` from `app.py`, parametric in the NLTK sentence
splitter `tok` and the per-pair TF-IDF scorer `sim` (which receives the two
preprocessed sentences). -/
def level2_sentence_level (tok : String → List String)
    (sim : String → String → Option ℚ)
    (text1 text2 : String) (threshold : ℚ) : Tier2Result :=
  let sentences1 := tok text1
  let sentences2 := tok text2
  if sentences1.isEmpty || sentences2.isEmpty then
    { method := "Sentence-Level Detection", plagiarized_sentences := [],
      total_sentences := sentences1.length, plagiarized_count := 0,
      threshold := none, error := none }
  else
    let plag := sentences1.enum.filterMap (fun p =>
      if (pyStrip p.2).length < 10 then none
      else
        let best := bestMatch sim (preprocess_text p.2) sentences2
        if best.1 ≥ threshold then
          some { sentence := p.2, similarity := pyRound2 (best.1 * 100),
                 matching_sentence := best.2, position := p.1 + 1 }
        else none)
    { method := "Sentence-Level Detection", plagiarized_sentences := plag,
      total_sentences := sentences1.length, plagiarized_count := plag.length,
      threshold := some (threshold * 100), error := none }

/-! ## Tier 3: `level3_semantic_similarity` -/

/-- One entry of `semantic_plagiarized_sentences`. -/
structure Match3 where
  sentence : String
  semantic_similarity : ℚ
  matching_sentence : String
  position : ℕ
  type : String
deriving DecidableEq, Repr

/-- Result record of `level3_semantic_similarity`.  The
model-unavailable and exception branches carry only `method`, `error`
and the empty list, hence the `Option` fields. -/
structure Tier3Result where
  method : String
  semantic_plagiarized_sentences : List Match3
  total_sentences : Option ℕ
  semantic_plagiarized_count : Option ℕ
  threshold : Option ℚ
  explanation : Option String
  error : Option String
deriving DecidableEq, Repr

/-- `np.argmax` together with the maximal value: index of the first
occurrence of the maximum, paired with the maximum itself.  (`np.argmax`
is never called on an empty array by `level3_semantic_similarity`; on `[]`
this returns the junk value `(0, 0)`.) -/
def argmaxAux : List ℚ → ℕ × ℚ
  | [] => (0, 0)
  | [x] => (0, x)
  | x :: y :: xs =>
    let best := argmaxAux (y :: xs)
    if best.2 > x then (best.1 + 1, best.2) else (0, x)

/-- `level3_semantic_similarity` from `app.py`, parametric in the NLTK
sentence splitter `tok` and in the startup-loaded transformer model:
`none` when `SentenceTransformer` failed to load, otherwise the function
taking a raw sentence of A and a raw sentence of B to the cosine
similarity of their embeddings.  Embeddings of B's qualifying sentences
are computed once (`valid2`); for each qualifying sentence of A the code
takes `np.argmax` over its similarities to `valid2` and emits a match when
the maximum passes the threshold. -/
def level3_semantic_similarity (tok : String → List String)
    (sentence_model : Option (String → String → ℚ))
    (text1 text2 : String) (threshold : ℚ) : Tier3Result :=
  match sentence_model with
  | none =>
    { method := "Semantic Similarity (Transformer)",
      semantic_plagiarized_sentences := [],
      total_sentences := none, semantic_plagiarized_count := none,
      threshold := none, explanation := none,
      error := some "Sentence transformer model not available" }
  | some sim =>
    let sentences1 := tok text1
    let sentences2 := tok text2
    if sentences1.isEmpty || sentences2.isEmpty then
      { method := "Semantic Similarity (Transformer)",
        semantic_plagiarized_sentences := [],
        total_sentences := some sentences1.length,
        semantic_plagiarized_count := some 0,
        threshold := none, explanation := none, error := none }
    else
      let valid2 := sentences2.filter (fun s => 10 ≤ (pyStrip s).length)
      if valid2.isEmpty then
        { method := "Semantic Similarity (Transformer)",
          semantic_plagiarized_sentences := [],
          total_sentences := some sentences1.length,
          semantic_plagiarized_count := some 0,
          threshold := none, explanation := none, error := none }
      else
        let plag := sentences1.enum.filterMap (fun p =>
          if (pyStrip p.2).length < 10 then none
          else
            let best := argmaxAux (valid2.map (fun s2 => sim p.2 s2))
            if best.2 ≥ threshold then
              some { sentence := p.2,
                     semantic_similarity := pyRound2 (best.2 * 100),
                     matching_sentence := valid2.getD best.1 "",
                     position := p.1 + 1, type := "semantic" }
            else none)
        { method := "Semantic Similarity (Transformer)",
          semantic_plagiarized_sentences := plag,
          total_sentences := some sentences1.length,
          semantic_plagiarized_count := some plag.length,
          threshold := some (threshold * 100),
          explanation := some "Detects paraphrased content using meaning-based analysis",
          error := none }

/-! ## The `/check-plagiarism` endpoint -/

/-- The `summary` block the endpoint compiles. -/
structure Summary where
  overall_similarity : ℝ
  total_plagiarized_sentences : ℕ
  semantic_plagiarized_sentences : ℕ
  text1_length : ℕ
  text2_length : ℕ

/-- The 200-payload of `/check-plagiarism`. -/
structure PlagiarismResponse where
  success : Bool
  level1_basic : Tier1Result
  level2_sentence : Tier2Result
  level3_semantic : Tier3Result
  summary : Summary

/-- The body of an endpoint reply: a 400-class error object or the full
200 payload. -/
inductive EndpointReply where
  | badRequest (error : String)
  | ok (response : PlagiarismResponse)

/-- Python `dict.get(key, "")` on a JSON object modelled as an
association list. -/
def jsonGetD (fields : List (String × String)) (key : String) : String :=
  match fields.lookup key with
  | some v => v
  | none => ""

/-- The POST path of `check_plagiarism` from `app.py`, parametric in the
same external pieces as the tiers.  The request body is `none` when no
JSON body could be parsed; a parsed body is an association list of string
fields (`not data` in Python is also true of the empty object, hence the
`isEmpty` test).  Returns the HTTP status code and the reply body.
Validation: both fields present and nonempty after `strip()`, and at
least 10 characters long; then the three tiers run in sequence with
thresholds 0.7 and 0.75 and the summary reads the counts off the tier
results with `dict.get(..., 0)` defaults. -/
noncomputable def check_plagiarism (tok : String → List String)
    (sim2 : String → String → Option ℚ)
    (sentence_model : Option (String → String → ℚ))
    (data : Option (List (String × String))) : ℕ × EndpointReply :=
  match data with
  | none => (400, .badRequest "No JSON data provided")
  | some fields =>
    if fields.isEmpty then (400, .badRequest "No JSON data provided")
    else
      let text1 := pyStrip (jsonGetD fields "text1")
      let text2 := pyStrip (jsonGetD fields "text2")
      if text1.isEmpty || text2.isEmpty then
        (400, .badRequest "Both text1 and text2 are required")
      else if text1.length < 10 || text2.length < 10 then
        (400, .badRequest "Texts must be at least 10 characters long")
      else
        let level1_result := level1_tfidf_similarity text1 text2
        let level2_result := level2_sentence_level tok sim2 text1 text2 (7/10)
        let level3_result := level3_semantic_similarity tok sentence_model text1 text2 (3/4)
        (200, .ok
          { success := true,
            level1_basic := level1_result,
            level2_sentence := level2_result,
            level3_semantic := level3_result,
            summary :=
              { overall_similarity := level1_result.similarity_percentage,
                total_plagiarized_sentences := level2_result.plagiarized_count,
                semantic_plagiarized_sentences :=
                  (level3_result.semantic_plagiarized_count).getD 0,
                text1_length := text1.length,
                text2_length := text2.length } })

/-- The property C1 asserts of an emitted match: among the sentences of
document B that survive the length-10 filter (`valid2`, in B's sentence
order), the matched sentence attains the maximum score and is the first
to do so: everything before it scores strictly less, everything after it
scores no more. -/
def IsFirstBest (score : String → ℚ) (valid2 : List String) (best : String) : Prop :=
  ∃ l₁ l₂, valid2 = l₁ ++ best :: l₂ ∧
    (∀ s ∈ l₁, score s < score best) ∧ (∀ s ∈ l₂, score s ≤ score best)

/-! ## Helper lemmas on the text normalizer -/

theorem toLower_idem (c : Char) : Char.toLower (Char.toLower c) = Char.toLower c := by
  unfold Char.toLower
  by_cases h : c.toNat ≥ 65 ∧ c.toNat ≤ 90
  · rw [if_pos h]
    have hv : (c.toNat + 32).isValidChar := Or.inl (by omega)
    have h2 : (Char.ofNat (c.toNat + 32)).toNat = c.toNat + 32 := by
      unfold Char.ofNat
      rw [dif_pos hv]
      rfl
    rw [if_neg (by omega)]
  · rw [if_neg h, if_neg h]

theorem takeWhile_append_all {p : Char → Bool} {w l : List Char}
    (h : ∀ c ∈ w, p c) : (w ++ l).takeWhile p = w ++ l.takeWhile p := by
  induction w with
  | nil => rfl
  | cons a w ih =>
    simp [h a (by simp), ih (fun c hc => h c (by simp [hc]))]

theorem dropWhile_append_all {p : Char → Bool} {w l : List Char}
    (h : ∀ c ∈ w, p c) : (w ++ l).dropWhile p = l.dropWhile p := by
  induction w with
  | nil => rfl
  | cons a w ih =>
    simp [h a (by simp), ih (fun c hc => h c (by simp [hc]))]

theorem runsBy_nil (p : Char → Bool) : runsBy p [] = [] := by
  rw [runsBy]

theorem runsBy_cons (p : Char → Bool) (c : Char) (cs : List Char) :
    runsBy p (c :: cs) =
      if p c then (c :: cs.takeWhile p) :: runsBy p (cs.dropWhile p)
      else runsBy p cs := by
  rw [runsBy]

theorem runsBy_sep {p : Char → Bool} {s : Char} (hs : p s = false)
    (rest : List Char) : runsBy p (s :: rest) = runsBy p rest := by
  rw [runsBy_cons, if_neg (by simp [hs])]

theorem runsBy_word_sep {p : Char → Bool} {w rest : List Char} {s : Char}
    (hw : w ≠ []) (h : ∀ c ∈ w, p c) (hs : p s = false) :
    runsBy p (w ++ s :: rest) = w :: runsBy p rest := by
  cases w with
  | nil => exact absurd rfl hw
  | cons a w =>
    rw [List.cons_append, runsBy_cons, if_pos (h a (by simp))]
    rw [takeWhile_append_all (fun c hc => h c (by simp [hc]))]
    rw [dropWhile_append_all (fun c hc => h c (by simp [hc]))]
    rw [List.takeWhile_cons, if_neg (by simp [hs])]
    rw [List.dropWhile_cons, if_neg (by simp [hs])]
    rw [runsBy_sep hs, List.append_nil]

theorem runsBy_all {p : Char → Bool} {w : List Char}
    (hw : w ≠ []) (h : ∀ c ∈ w, p c) : runsBy p w = [w] := by
  cases w with
  | nil => exact absurd rfl hw
  | cons a w =>
    rw [runsBy_cons, if_pos (h a (by simp))]
    rw [List.takeWhile_eq_self_iff.mpr (fun c hc => h c (by simp [hc]))]
    rw [List.dropWhile_eq_nil_iff.mpr (fun c hc => h c (by simp [hc]))]
    rw [runsBy_nil]

theorem runsBy_forall_mem {p : Char → Bool} (l : List Char) :
    ∀ w ∈ runsBy p l, w ≠ [] ∧ ∀ c ∈ w, p c := by
  induction l using runsBy.induct p with
  | case1 => simp [runsBy_nil]
  | case2 c cs hp ih =>
    rw [runsBy_cons, if_pos hp]
    intro w hw
    rcases List.mem_cons.mp hw with hw | hw
    · subst hw
      refine ⟨by simp, ?_⟩
      intro x hx
      rcases List.mem_cons.mp hx with hx | hx
      · subst hx; exact hp
      · exact List.mem_takeWhile_imp hx
    · exact ih w hw
  | case3 c cs hp ih =>
    rw [runsBy_cons, if_neg (by simp [hp])]
    exact ih

theorem runsBy_chars_subset {p : Char → Bool} (l : List Char) :
    ∀ w ∈ runsBy p l, ∀ c ∈ w, c ∈ l := by
  induction l using runsBy.induct p with
  | case1 => simp [runsBy_nil]
  | case2 c cs hp ih =>
    rw [runsBy_cons, if_pos hp]
    intro w hw x hx
    rcases List.mem_cons.mp hw with hw | hw
    · subst hw
      rcases List.mem_cons.mp hx with hx | hx
      · simp [hx]
      · exact List.mem_cons_of_mem c ((List.takeWhile_sublist p).subset hx)
    · exact List.mem_cons_of_mem c ((List.dropWhile_sublist p).subset (ih w hw x hx))
  | case3 c cs hp ih =>
    rw [runsBy_cons, if_neg (by simp [hp])]
    intro w hw x hx
    exact List.mem_cons_of_mem c (ih w hw x hx)

theorem mem_pyUnwords {c : Char} :
    ∀ {ws : List (List Char)}, c ∈ pyUnwords ws → c = ' ' ∨ ∃ w ∈ ws, c ∈ w := by
  intro ws
  induction ws with
  | nil => simp [pyUnwords]
  | cons w ws ih =>
    cases ws with
    | nil =>
      intro h
      exact Or.inr ⟨w, by simp, h⟩
    | cons w2 ws2 =>
      intro h
      rw [show pyUnwords (w :: w2 :: ws2) = w ++ ' ' :: pyUnwords (w2 :: ws2) from rfl] at h
      rcases List.mem_append.mp h with h | h
      · exact Or.inr ⟨w, by simp, h⟩
      · rcases List.mem_cons.mp h with h | h
        · exact Or.inl h
        · rcases ih h with h | ⟨w3, hw3, hc⟩
          · exact Or.inl h
          · exact Or.inr ⟨w3, by simp [hw3], hc⟩

theorem pyWords_pyUnwords {ws : List (List Char)}
    (h : ∀ w ∈ ws, w ≠ [] ∧ ∀ c ∈ w, !c.isWhitespace) :
    pyWords (pyUnwords ws) = ws := by
  induction ws with
  | nil => simp [pyUnwords, pyWords, runsBy_nil]
  | cons w ws ih =>
    cases ws with
    | nil =>
      show pyWords w = [w]
      exact runsBy_all (h w (by simp)).1 (h w (by simp)).2
    | cons w2 ws2 =>
      show pyWords (w ++ ' ' :: pyUnwords (w2 :: ws2)) = _
      unfold pyWords
      rw [runsBy_word_sep (h w (by simp)).1 (h w (by simp)).2 (by simp)]
      have := ih (fun x hx => h x (by simp [hx]))
      unfold pyWords at this
      rw [this]

theorem map_eq_self_of {α : Type} {f : α → α} {l : List α}
    (h : ∀ a ∈ l, f a = a) : l.map f = l := by
  induction l with
  | nil => rfl
  | cons a l ih =>
    rw [List.map_cons, h a (by simp), ih (fun x hx => h x (by simp [hx]))]

/-- C10: `preprocess_text` is idempotent. -/
theorem preprocess_text_idempotent (s : String) :
    preprocess_text (preprocess_text s) = preprocess_text s := by
  unfold preprocess_text
  have hdata : ∀ l : List Char, (String.mk l).data = l := fun _ => rfl
  rw [hdata]
  have hws := @runsBy_forall_mem (fun c => !c.isWhitespace)
    ((s.data.map Char.toLower).filter (fun c => !isPyPunct c))
  have hchars : ∀ c ∈ pyUnwords (pyWords ((s.data.map Char.toLower).filter (fun c => !isPyPunct c))),
      c = ' ' ∨ c ∈ (s.data.map Char.toLower).filter (fun c => !isPyPunct c) := by
    intro c hc
    rcases mem_pyUnwords hc with h | ⟨w, hw, hcw⟩
    · exact Or.inl h
    · exact Or.inr (runsBy_chars_subset _ w hw c hcw)
  have hlower : (pyUnwords (pyWords ((s.data.map Char.toLower).filter (fun c => !isPyPunct c)))).map Char.toLower
      = pyUnwords (pyWords ((s.data.map Char.toLower).filter (fun c => !isPyPunct c))) := by
    apply map_eq_self_of
    intro c hc
    rcases hchars c hc with h | h
    · subst h; rfl
    · rcases List.mem_map.mp (List.mem_filter.mp h).1 with ⟨x, _, hx⟩
      rw [← hx]
      exact toLower_idem x
  have hfilter : (pyUnwords (pyWords ((s.data.map Char.toLower).filter (fun c => !isPyPunct c)))).filter (fun c => !isPyPunct c)
      = pyUnwords (pyWords ((s.data.map Char.toLower).filter (fun c => !isPyPunct c))) := by
    apply List.filter_eq_self.mpr
    intro c hc
    rcases hchars c hc with h | h
    · subst h; rfl
    · exact (List.mem_filter.mp h).2
  rw [hlower, hfilter]
  have hvalid : ∀ w ∈ pyWords ((s.data.map Char.toLower).filter (fun c => !isPyPunct c)),
      w ≠ [] ∧ ∀ c ∈ w, !c.isWhitespace := hws
  rw [pyWords_pyUnwords hvalid]

/-! ## Helper lemmas: rounding -/

theorem pyRound2_mono {x y : ℚ} (h : x ≤ y) : pyRound2 x ≤ pyRound2 y := by
  unfold pyRound2
  have h2 : round (x * 100) ≤ round (y * 100) := by
    rw [round_eq, round_eq]
    exact Int.floor_le_floor (by linarith)
  have h3 : ((round (x * 100) : ℤ) : ℚ) ≤ ((round (y * 100) : ℤ) : ℚ) := by
    exact_mod_cast h2
  linarith

theorem pyRound2_intCast (n : ℤ) : pyRound2 ((n : ℚ)) = n := by
  unfold pyRound2
  rw [show ((n : ℚ) * 100) = (((n * 100 : ℤ)) : ℚ) by push_cast; ring, round_intCast]
  push_cast
  ring

/-! ## Helper lemmas: the Tier 2 inner loop -/

theorem foldl_bestMatchStep_invariant (sim : String → String → Option ℚ)
    (ps1 : String) (l : List String) :
    ∀ init : ℚ × String,
      l.foldl (bestMatchStep sim ps1) init = init ∨
      ∃ s ∈ l, 10 ≤ (pyStrip s).length ∧
        sim ps1 (preprocess_text s) = some (l.foldl (bestMatchStep sim ps1) init).1 ∧
        (l.foldl (bestMatchStep sim ps1) init).2 = s := by
  induction l with
  | nil => exact fun init => Or.inl rfl
  | cons a l ih =>
    intro init
    rw [List.foldl_cons]
    rcases ih (bestMatchStep sim ps1 init a) with h | ⟨s, hs, h10, hsim, heq⟩
    · rw [h]
      unfold bestMatchStep
      split
      · exact Or.inl rfl
      · rename_i h10a
        split
        · exact Or.inl rfl
        · rename_i sc hsc
          split
          · exact Or.inr ⟨a, by simp, by omega, by rw [hsc], rfl⟩
          · exact Or.inl rfl
    · exact Or.inr ⟨s, by simp [hs], h10, hsim, heq⟩

theorem foldl_bestMatchStep_total_spec (simT : String → String → ℚ)
    (ps1 : String) (l : List String) :
    ∀ init : ℚ × String,
      (l.foldl (bestMatchStep (fun a b => some (simT a b)) ps1) init = init ∧
        ∀ s ∈ l, 10 ≤ (pyStrip s).length → simT ps1 (preprocess_text s) ≤ init.1) ∨
      (∃ l₁ l₂,
        l.filter (fun s => !((pyStrip s).length < 10)) =
          l₁ ++ (l.foldl (bestMatchStep (fun a b => some (simT a b)) ps1) init).2 :: l₂ ∧
        simT ps1 (preprocess_text (l.foldl (bestMatchStep (fun a b => some (simT a b)) ps1) init).2) =
          (l.foldl (bestMatchStep (fun a b => some (simT a b)) ps1) init).1 ∧
        init.1 < (l.foldl (bestMatchStep (fun a b => some (simT a b)) ps1) init).1 ∧
        (∀ s ∈ l₁, simT ps1 (preprocess_text s) <
          (l.foldl (bestMatchStep (fun a b => some (simT a b)) ps1) init).1) ∧
        (∀ s ∈ l₂, simT ps1 (preprocess_text s) ≤
          (l.foldl (bestMatchStep (fun a b => some (simT a b)) ps1) init).1)) := by
  induction l with
  | nil => exact fun init => Or.inl ⟨rfl, by simp⟩
  | cons a l ih =>
    intro init
    rw [List.foldl_cons]
    by_cases hva : (pyStrip a).length < 10
    · have hstep : bestMatchStep (fun a b => some (simT a b)) ps1 init a = init := by
        unfold bestMatchStep
        rw [if_pos hva]
      rw [hstep]
      have hfil : (a :: l).filter (fun s => !((pyStrip s).length < 10)) =
          l.filter (fun s => !((pyStrip s).length < 10)) := by
        rw [List.filter_cons_of_neg (by simp [hva])]
      rcases ih init with ⟨h, hall⟩ | ⟨l₁, l₂, hsplit, hscore, hgt, hl₁, hl₂⟩
      · refine Or.inl ⟨h, ?_⟩
        intro s hs h10
        rcases List.mem_cons.mp hs with rfl | hs
        · omega
        · exact hall s hs h10
      · exact Or.inr ⟨l₁, l₂, by rw [hfil, hsplit], hscore, hgt, hl₁, hl₂⟩
    · have hfil : (a :: l).filter (fun s => !((pyStrip s).length < 10)) =
          a :: l.filter (fun s => !((pyStrip s).length < 10)) := by
        rw [List.filter_cons_of_pos (by simp [hva])]
      by_cases hgt : simT ps1 (preprocess_text a) > init.1
      · have hstep : bestMatchStep (fun a b => some (simT a b)) ps1 init a =
            (simT ps1 (preprocess_text a), a) := by
          unfold bestMatchStep
          rw [if_neg hva]
          simp only []
          rw [if_pos hgt]
        rw [hstep]
        rcases ih (simT ps1 (preprocess_text a), a) with ⟨h, hall⟩ |
          ⟨l₁, l₂, hsplit, hscore, hgt2, hl₁, hl₂⟩
        · rw [h]
          refine Or.inr ⟨[], l.filter (fun s => !((pyStrip s).length < 10)), by rw [hfil]; rfl, rfl, hgt,
            by simp, ?_⟩
          intro s hs
          have hmem := (List.mem_filter.mp hs).1
          have hvs : 10 ≤ (pyStrip s).length := by
            have := (List.mem_filter.mp hs).2
            simp at this
            omega
          exact hall s hmem hvs
        · refine Or.inr ⟨a :: l₁, l₂, ?_, hscore, by linarith, ?_, hl₂⟩
          · rw [hfil, hsplit]
            rfl
          · intro s hs
            rcases List.mem_cons.mp hs with rfl | hs
            · linarith
            · exact hl₁ s hs
      · have hstep : bestMatchStep (fun a b => some (simT a b)) ps1 init a = init := by
          unfold bestMatchStep
          rw [if_neg hva]
          simp only []
          rw [if_neg hgt]
        rw [hstep]
        rcases ih init with ⟨h, hall⟩ | ⟨l₁, l₂, hsplit, hscore, hgt2, hl₁, hl₂⟩
        · refine Or.inl ⟨h, ?_⟩
          intro s hs h10
          rcases List.mem_cons.mp hs with rfl | hs
          · linarith
          · exact hall s hs h10
        · refine Or.inr ⟨a :: l₁, l₂, ?_, hscore, hgt2, ?_, hl₂⟩
          · rw [hfil, hsplit]
            rfl
          · intro s hs
            rcases List.mem_cons.mp hs with rfl | hs
            · linarith
            · exact hl₁ s hs

/-! ## Helper lemmas: the Tier 3 argmax -/

theorem argmaxAux_spec (l : List ℚ) : l ≠ [] →
    (argmaxAux l).1 < l.length ∧ l.getD (argmaxAux l).1 0 = (argmaxAux l).2 ∧
    (∀ i < (argmaxAux l).1, l.getD i 0 < (argmaxAux l).2) ∧
    (∀ i < l.length, l.getD i 0 ≤ (argmaxAux l).2) := by
  induction l using argmaxAux.induct with
  | case1 => exact fun h => absurd rfl h
  | case2 x =>
    intro _
    refine ⟨by simp [argmaxAux], by simp [argmaxAux], ?_, ?_⟩
    · intro i hi
      simp [argmaxAux] at hi
    · intro i hi
      cases i with
      | zero => simp [argmaxAux]
      | succ j => simp at hi
  | case3 x y xs best hgt ih =>
    intro _
    have ih2 := ih (by simp)
    have hgt2 : x < (argmaxAux (y :: xs)).2 := hgt
    have hres : argmaxAux (x :: y :: xs) =
        ((argmaxAux (y :: xs)).1 + 1, (argmaxAux (y :: xs)).2) := by
      rw [argmaxAux]
      rw [if_pos hgt]
    rw [hres]
    refine ⟨?_, ?_, ?_, ?_⟩
    · simpa using ih2.1
    · rw [List.getD_cons_succ]
      exact ih2.2.1
    · intro i hi
      cases i with
      | zero =>
        rw [List.getD_cons_zero]
        exact hgt2
      | succ j =>
        rw [List.getD_cons_succ]
        exact ih2.2.2.1 j (by omega)
    · intro i hi
      cases i with
      | zero =>
        rw [List.getD_cons_zero]
        exact le_of_lt hgt2
      | succ j =>
        rw [List.getD_cons_succ]
        exact ih2.2.2.2 j (by simpa using hi)
  | case4 x y xs best hgt ih =>
    intro _
    have ih2 := ih (by simp)
    have hgt2 : (argmaxAux (y :: xs)).2 ≤ x := not_lt.mp hgt
    have hres : argmaxAux (x :: y :: xs) = (0, x) := by
      rw [argmaxAux]
      rw [if_neg hgt]
    rw [hres]
    refine ⟨by simp, by rw [List.getD_cons_zero], ?_, ?_⟩
    · intro i hi
      simp at hi
    · intro i hi
      cases i with
      | zero =>
        rw [List.getD_cons_zero]
      | succ j =>
        rw [List.getD_cons_succ]
        exact le_trans (ih2.2.2.2 j (by simpa using hi)) hgt2

/-! ## Helper lemmas: positions of emitted matches -/

theorem enumFrom_filterMap_positions {β : Type} (f : ℕ × String → Option β)
    (pos : β → ℕ) (hf : ∀ i a m, f (i, a) = some m → pos m = i + 1) :
    ∀ (l : List String) (n : ℕ),
      (∀ m ∈ (List.enumFrom n l).filterMap f, n + 1 ≤ pos m ∧ pos m ≤ n + l.length) ∧
      ((List.enumFrom n l).filterMap f).Pairwise (fun a b => pos a < pos b) := by
  intro l
  induction l with
  | nil => simp
  | cons a l ih =>
    intro n
    rw [List.enumFrom_cons, List.filterMap_cons]
    cases hfa : f (n, a) with
    | none =>
      refine ⟨?_, (ih (n + 1)).2⟩
      intro m hm
      have h2 := (ih (n + 1)).1 m hm
      simp only [List.length_cons]
      omega
    | some m0 =>
      have hpos : pos m0 = n + 1 := hf n a m0 hfa
      refine ⟨?_, ?_⟩
      · intro m hm
        rcases List.mem_cons.mp hm with rfl | hm
        · simp only [List.length_cons]
          omega
        · have h2 := (ih (n + 1)).1 m hm
          simp only [List.length_cons]
          omega
      · refine List.Pairwise.cons ?_ (ih (n + 1)).2
        intro m hm
        have h2 := (ih (n + 1)).1 m hm
        omega

/-! ## Inversion of membership in the tier outputs -/

theorem level2_eq (tok : String → List String) (sim : String → String → Option ℚ)
    (t1 t2 : String) (thr : ℚ) :
    level2_sentence_level tok sim t1 t2 thr =
      if (tok t1).isEmpty || (tok t2).isEmpty then
        { method := "Sentence-Level Detection", plagiarized_sentences := [],
          total_sentences := (tok t1).length, plagiarized_count := 0,
          threshold := none, error := none }
      else
        { method := "Sentence-Level Detection",
          plagiarized_sentences := (tok t1).enum.filterMap (fun p =>
            if (pyStrip p.2).length < 10 then none
            else
              if (bestMatch sim (preprocess_text p.2) (tok t2)).1 ≥ thr then
                some { sentence := p.2,
                       similarity := pyRound2 ((bestMatch sim (preprocess_text p.2) (tok t2)).1 * 100),
                       matching_sentence := (bestMatch sim (preprocess_text p.2) (tok t2)).2,
                       position := p.1 + 1 }
              else none),
          total_sentences := (tok t1).length,
          plagiarized_count := ((tok t1).enum.filterMap (fun p =>
            if (pyStrip p.2).length < 10 then none
            else
              if (bestMatch sim (preprocess_text p.2) (tok t2)).1 ≥ thr then
                some (Match2.mk p.2 (pyRound2 ((bestMatch sim (preprocess_text p.2) (tok t2)).1 * 100))
                  (bestMatch sim (preprocess_text p.2) (tok t2)).2 (p.1 + 1))
              else none)).length,
          threshold := some (thr * 100), error := none } := rfl

theorem level3_some_eq (tok : String → List String) (sim : String → String → ℚ)
    (t1 t2 : String) (thr : ℚ) :
    level3_semantic_similarity tok (some sim) t1 t2 thr =
      if (tok t1).isEmpty || (tok t2).isEmpty then
        { method := "Semantic Similarity (Transformer)",
          semantic_plagiarized_sentences := [],
          total_sentences := some (tok t1).length,
          semantic_plagiarized_count := some 0,
          threshold := none, explanation := none, error := none }
      else if ((tok t2).filter (fun s => 10 ≤ (pyStrip s).length)).isEmpty then
        { method := "Semantic Similarity (Transformer)",
          semantic_plagiarized_sentences := [],
          total_sentences := some (tok t1).length,
          semantic_plagiarized_count := some 0,
          threshold := none, explanation := none, error := none }
      else
        { method := "Semantic Similarity (Transformer)",
          semantic_plagiarized_sentences := (tok t1).enum.filterMap (fun p =>
            if (pyStrip p.2).length < 10 then none
            else
              if (argmaxAux (((tok t2).filter (fun s => 10 ≤ (pyStrip s).length)).map
                    (fun s2 => sim p.2 s2))).2 ≥ thr then
                some { sentence := p.2,
                       semantic_similarity := pyRound2
                         ((argmaxAux (((tok t2).filter (fun s => 10 ≤ (pyStrip s).length)).map
                            (fun s2 => sim p.2 s2))).2 * 100),
                       matching_sentence := ((tok t2).filter (fun s => 10 ≤ (pyStrip s).length)).getD
                         (argmaxAux (((tok t2).filter (fun s => 10 ≤ (pyStrip s).length)).map
                            (fun s2 => sim p.2 s2))).1 "",
                       position := p.1 + 1, type := "semantic" }
              else none),
          total_sentences := some (tok t1).length,
          semantic_plagiarized_count := some ((tok t1).enum.filterMap (fun p =>
            if (pyStrip p.2).length < 10 then none
            else
              if (argmaxAux (((tok t2).filter (fun s => 10 ≤ (pyStrip s).length)).map
                    (fun s2 => sim p.2 s2))).2 ≥ thr then
                some (Match3.mk p.2
                  (pyRound2 ((argmaxAux (((tok t2).filter (fun s => 10 ≤ (pyStrip s).length)).map
                    (fun s2 => sim p.2 s2))).2 * 100))
                  (((tok t2).filter (fun s => 10 ≤ (pyStrip s).length)).getD
                    (argmaxAux (((tok t2).filter (fun s => 10 ≤ (pyStrip s).length)).map
                      (fun s2 => sim p.2 s2))).1 "")
                  (p.1 + 1) "semantic")
              else none)).length,
          threshold := some (thr * 100),
          explanation := some "Detects paraphrased content using meaning-based analysis",
          error := none } := rfl


theorem mem_level2_inv {tok : String → List String}
    {sim : String → String → Option ℚ} {t1 t2 : String} {thr : ℚ} {m : Match2}
    (hm : m ∈ (level2_sentence_level tok sim t1 t2 thr).plagiarized_sentences) :
    ∃ i sent1, (i, sent1) ∈ (tok t1).enum ∧ ¬((pyStrip sent1).length < 10) ∧
      thr ≤ (bestMatch sim (preprocess_text sent1) (tok t2)).1 ∧
      m = { sentence := sent1,
            similarity := pyRound2 ((bestMatch sim (preprocess_text sent1) (tok t2)).1 * 100),
            matching_sentence := (bestMatch sim (preprocess_text sent1) (tok t2)).2,
            position := i + 1 } := by
  rw [level2_eq] at hm
  split at hm
  · simp at hm
  · simp only [] at hm
    rcases List.mem_filterMap.mp hm with ⟨p, hp, hfp⟩
    rcases p with ⟨i, sent1⟩
    refine ⟨i, sent1, hp, ?_⟩
    split at hfp
    · exact absurd hfp (by simp)
    · split at hfp
      · rename_i h10 hthr
        exact ⟨h10, hthr, by injection hfp with h; exact h.symm⟩
      · exact absurd hfp (by simp)

theorem mem_level3_inv {tok : String → List String}
    {sim : String → String → ℚ} {t1 t2 : String} {thr : ℚ} {m : Match3}
    (hm : m ∈ (level3_semantic_similarity tok (some sim) t1 t2 thr).semantic_plagiarized_sentences) :
    ¬((tok t2).filter (fun s => 10 ≤ (pyStrip s).length)).isEmpty ∧
    ∃ i sent1, (i, sent1) ∈ (tok t1).enum ∧ ¬((pyStrip sent1).length < 10) ∧
      thr ≤ (argmaxAux (((tok t2).filter (fun s => 10 ≤ (pyStrip s).length)).map (fun s2 => sim sent1 s2))).2 ∧
      m = { sentence := sent1,
            semantic_similarity := pyRound2
              ((argmaxAux (((tok t2).filter (fun s => 10 ≤ (pyStrip s).length)).map (fun s2 => sim sent1 s2))).2 * 100),
            matching_sentence := ((tok t2).filter (fun s => 10 ≤ (pyStrip s).length)).getD
              (argmaxAux (((tok t2).filter (fun s => 10 ≤ (pyStrip s).length)).map (fun s2 => sim sent1 s2))).1 "",
            position := i + 1, type := "semantic" } := by
  rw [level3_some_eq] at hm
  split at hm
  · simp at hm
  · split at hm
    · simp at hm
    · refine ⟨by assumption, ?_⟩
      simp only [] at hm
      rcases List.mem_filterMap.mp hm with ⟨p, hp, hfp⟩
      rcases p with ⟨i, sent1⟩
      refine ⟨i, sent1, hp, ?_⟩
      split at hfp
      · exact absurd hfp (by simp)
      · split at hfp
        · rename_i h10 hthr
          exact ⟨h10, hthr, by injection hfp with h; exact h.symm⟩
        · exact absurd hfp (by simp)

/-! ## Claims -/

/-- C2, counterexample: with document A yielding one sentence and document
B yielding zero sentences, `level2_sentence_level` returns
`total_sentences = 1`, not `0` as the claim states (the code returns
`len(sentences1)` in the zero-sentence early return). -/
theorem level2_zero_sentences_counterexample :
    ¬((level2_sentence_level
        (fun t => if t = "docA" then ["This is sentence alpha."] else [])
        (fun _ _ => some 0) "docA" "docB" (7/10)).total_sentences = 0) := by
  decide

/-- C2 (amended): if either input document yields zero sentences, Tier 2
returns a result whose `total_sentences` is the number of sentences of
document A (hence `0` exactly when A yields zero sentences), whose
`plagiarized_count` is 0, whose `plagiarized_sentences` list is empty, and
which carries no `error` field. -/
theorem level2_zero_sentences_amended (tok : String → List String)
    (sim : String → String → Option ℚ) (t1 t2 : String) (thr : ℚ)
    (h : tok t1 = [] ∨ tok t2 = []) :
    level2_sentence_level tok sim t1 t2 thr =
      { method := "Sentence-Level Detection", plagiarized_sentences := [],
        total_sentences := (tok t1).length, plagiarized_count := 0,
        threshold := none, error := none } := by
  rw [level2_eq, if_pos]
  rcases h with h | h <;> simp [h]

/-- Witness for C2's amended theorem at a concrete input. -/
theorem level2_zero_sentences_amended_witness :
    ((fun t => if t = "docA" then ["This is sentence alpha."] else ([] : List String)) "docB" = [] ∨
      (fun t => if t = "docA" then ["This is sentence alpha."] else ([] : List String)) "docB" = []) ∧
    level2_sentence_level
        (fun t => if t = "docA" then ["This is sentence alpha."] else [])
        (fun _ _ => some 0) "docB" "docA" (7/10) =
      { method := "Sentence-Level Detection", plagiarized_sentences := [],
        total_sentences := 0, plagiarized_count := 0,
        threshold := none, error := none } :=
  ⟨by decide,
    level2_zero_sentences_amended
      (fun t => if t = "docA" then ["This is sentence alpha."] else [])
      (fun _ _ => some 0) "docB" "docA" (7/10) (Or.inl (by decide))⟩

/-- C3: every match emitted by Tier 2 at the default threshold 0.70 has a
surfaced similarity of at least 70 percent, and every match emitted by
Tier 3 at the default threshold 0.75 has a surfaced semantic similarity of
at least 75 percent; equivalently, no sentence whose best score fails the
threshold test is placed in the output list. -/
theorem matches_meet_threshold (tok : String → List String)
    (sim2 : String → String → Option ℚ) (model : Option (String → String → ℚ))
    (t1 t2 : String) :
    (∀ m ∈ (level2_sentence_level tok sim2 t1 t2 (7/10)).plagiarized_sentences,
        70 ≤ m.similarity) ∧
    (∀ m ∈ (level3_semantic_similarity tok model t1 t2 (3/4)).semantic_plagiarized_sentences,
        75 ≤ m.semantic_similarity) := by
  have h70 : pyRound2 ((70 : ℚ)) = 70 := by
    have := pyRound2_intCast 70
    norm_num at this
    exact this
  have h75 : pyRound2 ((75 : ℚ)) = 75 := by
    have := pyRound2_intCast 75
    norm_num at this
    exact this
  constructor
  · intro m hm
    rcases mem_level2_inv hm with ⟨i, s1, hmem, h10, hthr, rfl⟩
    show (70 : ℚ) ≤ pyRound2 ((bestMatch sim2 (preprocess_text s1) (tok t2)).1 * 100)
    have h1 : (70 : ℚ) ≤ (bestMatch sim2 (preprocess_text s1) (tok t2)).1 * 100 := by
      linarith
    calc (70 : ℚ) = pyRound2 70 := h70.symm
      _ ≤ _ := pyRound2_mono h1
  · intro m hm
    cases model with
    | none =>
      simp [level3_semantic_similarity] at hm
    | some sim3 =>
      rcases (mem_level3_inv hm).2 with ⟨i, s1, hmem, h10, hthr, rfl⟩
      show (75 : ℚ) ≤ pyRound2 _
      have h1 : (75 : ℚ) ≤
          (argmaxAux (((tok t2).filter (fun s => 10 ≤ (pyStrip s).length)).map
            (fun s2 => sim3 s1 s2))).2 * 100 := by
        linarith
      calc (75 : ℚ) = pyRound2 75 := h75.symm
        _ ≤ _ := pyRound2_mono h1

/-- Witness for C3 at a concrete input. -/
theorem matches_meet_threshold_witness :
    ({ sentence := "This is sentence alpha.", similarity := 100,
       matching_sentence := "This is sentence beta.", position := 1 } ∈
      (level2_sentence_level
        (fun t => if t = "docA" then ["This is sentence alpha."]
                  else ["This is sentence beta.", "This is sentence gamma."])
        (fun _ _ => some 1) "docA" "docB" (7/10)).plagiarized_sentences) ∧
    (70 : ℚ) ≤ (100 : ℚ) :=
  ⟨by decide,
    (matches_meet_threshold
      (fun t => if t = "docA" then ["This is sentence alpha."]
                else ["This is sentence beta.", "This is sentence gamma."])
      (fun _ _ => some 1) none "docA" "docB").1
      { sentence := "This is sentence alpha.", similarity := 100,
        matching_sentence := "This is sentence beta.", position := 1 }
      (by decide)⟩

/-- C9: under the default thresholds (0.70 for Tier 2, 0.75 for Tier 3),
no sentence of trimmed length below 10 characters ever appears as the
`sentence` field or as the `matching_sentence` field of an emitted match. -/
theorem short_sentences_excluded (tok : String → List String)
    (sim2 : String → String → Option ℚ) (model : Option (String → String → ℚ))
    (t1 t2 : String) :
    (∀ m ∈ (level2_sentence_level tok sim2 t1 t2 (7/10)).plagiarized_sentences,
        10 ≤ (pyStrip m.sentence).length ∧ 10 ≤ (pyStrip m.matching_sentence).length) ∧
    (∀ m ∈ (level3_semantic_similarity tok model t1 t2 (3/4)).semantic_plagiarized_sentences,
        10 ≤ (pyStrip m.sentence).length ∧ 10 ≤ (pyStrip m.matching_sentence).length) := by
  constructor
  · intro m hm
    rcases mem_level2_inv hm with ⟨i, s1, hmem, h10, hthr, rfl⟩
    refine ⟨by simpa using Nat.le_of_not_lt h10, ?_⟩
    show 10 ≤ (pyStrip (bestMatch sim2 (preprocess_text s1) (tok t2)).2).length
    unfold bestMatch
    rcases foldl_bestMatchStep_invariant sim2 (preprocess_text s1) (tok t2) (0, "")
      with heq | ⟨s, hs, hs10, hsim, heq⟩
    · exfalso
      unfold bestMatch at hthr
      rw [heq] at hthr
      norm_num at hthr
    · rw [heq]
      exact hs10
  · intro m hm
    cases model with
    | none => simp [level3_semantic_similarity] at hm
    | some sim3 =>
      rcases mem_level3_inv hm with ⟨hne, i, s1, hmem, h10, hthr, rfl⟩
      refine ⟨by simpa using Nat.le_of_not_lt h10, ?_⟩
      show 10 ≤ (pyStrip (((tok t2).filter (fun s => 10 ≤ (pyStrip s).length)).getD
        (argmaxAux (((tok t2).filter (fun s => 10 ≤ (pyStrip s).length)).map
          (fun s2 => sim3 s1 s2))).1 "")).length
      have hlist : ((tok t2).filter (fun s => 10 ≤ (pyStrip s).length)).map
          (fun s2 => sim3 s1 s2) ≠ [] := by
        intro hnil
        rw [List.map_eq_nil_iff] at hnil
        rw [hnil] at hne
        simp at hne
      have hspec := argmaxAux_spec _ hlist
      have hlt : (argmaxAux (((tok t2).filter (fun s => 10 ≤ (pyStrip s).length)).map
          (fun s2 => sim3 s1 s2))).1 <
          ((tok t2).filter (fun s => 10 ≤ (pyStrip s).length)).length := by
        have := hspec.1
        rwa [List.length_map] at this
      rw [List.getD_eq_getElem _ _ hlt]
      have hmem2 := List.getElem_mem hlt
      have := (List.mem_filter.mp hmem2).2
      simpa using this

/-- Witness for C9 at a concrete input. -/
theorem short_sentences_excluded_witness :
    ({ sentence := "This is sentence alpha.", similarity := 100,
       matching_sentence := "This is sentence beta.", position := 1 } ∈
      (level2_sentence_level
        (fun t => if t = "docA" then ["This is sentence alpha."]
                  else ["This is sentence beta.", "This is sentence gamma."])
        (fun _ _ => some 1) "docA" "docB" (7/10)).plagiarized_sentences) ∧
    10 ≤ (pyStrip "This is sentence alpha.").length ∧
    10 ≤ (pyStrip "This is sentence beta.").length :=
  ⟨by decide,
    (short_sentences_excluded
      (fun t => if t = "docA" then ["This is sentence alpha."]
                else ["This is sentence beta.", "This is sentence gamma."])
      (fun _ _ => some 1) none "docA" "docB").1
      { sentence := "This is sentence alpha.", similarity := 100,
        matching_sentence := "This is sentence beta.", position := 1 }
      (by decide)⟩

theorem level2_total_sentences (tok : String → List String)
    (sim : String → String → Option ℚ) (t1 t2 : String) (thr : ℚ) :
    (level2_sentence_level tok sim t1 t2 thr).total_sentences = (tok t1).length := by
  rw [level2_eq]
  split <;> rfl

theorem level3_total_sentences (tok : String → List String)
    (sim3 : String → String → ℚ) (t1 t2 : String) (thr : ℚ) :
    (level3_semantic_similarity tok (some sim3) t1 t2 thr).total_sentences =
      some (tok t1).length := by
  rw [level3_some_eq]
  split
  · rfl
  · split <;> rfl

/-- C8: in both Tier 2 and Tier 3, emitted positions are 1-based, strictly
increasing along the output list (which follows document A's sentence
order), and bounded by the `total_sentences` field of the same result. -/
theorem match_positions_valid (tok : String → List String)
    (sim2 : String → String → Option ℚ) (model : Option (String → String → ℚ))
    (t1 t2 : String) (thr2 thr3 : ℚ) :
    (∀ m ∈ (level2_sentence_level tok sim2 t1 t2 thr2).plagiarized_sentences,
        1 ≤ m.position ∧
          m.position ≤ (level2_sentence_level tok sim2 t1 t2 thr2).total_sentences) ∧
    ((level2_sentence_level tok sim2 t1 t2 thr2).plagiarized_sentences.Pairwise
        (fun a b => a.position < b.position)) ∧
    (∀ m ∈ (level3_semantic_similarity tok model t1 t2 thr3).semantic_plagiarized_sentences,
        1 ≤ m.position ∧
          m.position ≤ (level3_semantic_similarity tok model t1 t2 thr3).total_sentences.getD 0) ∧
    ((level3_semantic_similarity tok model t1 t2 thr3).semantic_plagiarized_sentences.Pairwise
        (fun a b => a.position < b.position)) := by
  have hgen2 := enumFrom_filterMap_positions
    (fun p => if (pyStrip p.2).length < 10 then none
      else
        if (bestMatch sim2 (preprocess_text p.2) (tok t2)).1 ≥ thr2 then
          some (Match2.mk p.2 (pyRound2 ((bestMatch sim2 (preprocess_text p.2) (tok t2)).1 * 100))
            (bestMatch sim2 (preprocess_text p.2) (tok t2)).2 (p.1 + 1))
        else none)
    Match2.position
    (by
      intro i a m hm
      dsimp only at hm
      split at hm
      · exact absurd hm (by simp)
      · split at hm
        · injection hm with h
          rw [← h]
        · exact absurd hm (by simp))
    (tok t1) 0
  rw [← List.enum_eq_enumFrom] at hgen2
  refine ⟨?_, ?_, ?_, ?_⟩
  · intro m hm
    rw [level2_total_sentences]
    rw [level2_eq] at hm
    split at hm
    · simp at hm
    · have := hgen2.1 m hm
      omega
  · rw [level2_eq]
    split
    · simp
    · exact hgen2.2
  · intro m hm
    cases model with
    | none => simp [level3_semantic_similarity] at hm
    | some sim3 =>
      have hgen3 := enumFrom_filterMap_positions
        (fun p => if (pyStrip p.2).length < 10 then none
          else
            if (argmaxAux (((tok t2).filter (fun s => 10 ≤ (pyStrip s).length)).map
                  (fun s2 => sim3 p.2 s2))).2 ≥ thr3 then
              some (Match3.mk p.2
                (pyRound2 ((argmaxAux (((tok t2).filter (fun s => 10 ≤ (pyStrip s).length)).map
                  (fun s2 => sim3 p.2 s2))).2 * 100))
                (((tok t2).filter (fun s => 10 ≤ (pyStrip s).length)).getD
                  (argmaxAux (((tok t2).filter (fun s => 10 ≤ (pyStrip s).length)).map
                    (fun s2 => sim3 p.2 s2))).1 "")
                (p.1 + 1) "semantic")
            else none)
        Match3.position
        (by
          intro i a m hm
          dsimp only at hm
          split at hm
          · exact absurd hm (by simp)
          · split at hm
            · injection hm with h
              rw [← h]
            · exact absurd hm (by simp))
        (tok t1) 0
      rw [← List.enum_eq_enumFrom] at hgen3
      rw [level3_total_sentences]
      rw [level3_some_eq] at hm
      split at hm
      · simp at hm
      · split at hm
        · simp at hm
        · have := hgen3.1 m hm
          simp only [Option.getD_some]
          omega
  · cases model with
    | none => simp [level3_semantic_similarity]
    | some sim3 =>
      have hgen3 := enumFrom_filterMap_positions
        (fun p => if (pyStrip p.2).length < 10 then none
          else
            if (argmaxAux (((tok t2).filter (fun s => 10 ≤ (pyStrip s).length)).map
                  (fun s2 => sim3 p.2 s2))).2 ≥ thr3 then
              some (Match3.mk p.2
                (pyRound2 ((argmaxAux (((tok t2).filter (fun s => 10 ≤ (pyStrip s).length)).map
                  (fun s2 => sim3 p.2 s2))).2 * 100))
                (((tok t2).filter (fun s => 10 ≤ (pyStrip s).length)).getD
                  (argmaxAux (((tok t2).filter (fun s => 10 ≤ (pyStrip s).length)).map
                    (fun s2 => sim3 p.2 s2))).1 "")
                (p.1 + 1) "semantic")
            else none)
        Match3.position
        (by
          intro i a m hm
          dsimp only at hm
          split at hm
          · exact absurd hm (by simp)
          · split at hm
            · injection hm with h
              rw [← h]
            · exact absurd hm (by simp))
        (tok t1) 0
      rw [← List.enum_eq_enumFrom] at hgen3
      rw [level3_some_eq]
      split
      · simp
      · split
        · simp
        · exact hgen3.2

/-- Witness for C8 at a concrete input. -/
theorem match_positions_valid_witness :
    ({ sentence := "This is sentence alpha.", similarity := 100,
       matching_sentence := "This is sentence beta.", position := 1 } ∈
      (level2_sentence_level
        (fun t => if t = "docA" then ["This is sentence alpha."]
                  else ["This is sentence beta.", "This is sentence gamma."])
        (fun _ _ => some 1) "docA" "docB" (7/10)).plagiarized_sentences) ∧
    1 ≤ 1 ∧ 1 ≤ (level2_sentence_level
        (fun t => if t = "docA" then ["This is sentence alpha."]
                  else ["This is sentence beta.", "This is sentence gamma."])
        (fun _ _ => some 1) "docA" "docB" (7/10)).total_sentences :=
  ⟨by decide,
    (match_positions_valid
      (fun t => if t = "docA" then ["This is sentence alpha."]
                else ["This is sentence beta.", "This is sentence gamma."])
      (fun _ _ => some 1) none "docA" "docB" (7/10) (3/4)).1
      { sentence := "This is sentence alpha.", similarity := 100,
        matching_sentence := "This is sentence beta.", position := 1 }
      (by decide)⟩

/-! ## Helper lemmas: from index argmax to first-best split -/

theorem filter_valid_eq (l : List String) :
    l.filter (fun s => !((pyStrip s).length < 10)) =
      l.filter (fun s => 10 ≤ (pyStrip s).length) := by
  apply List.filter_congr
  intro s _
  by_cases h : (pyStrip s).length < 10
  · simp [h]
  · simp [h]
    omega

theorem sims_getD_eq {score : String → ℚ} {l : List String} {i : ℕ}
    (hi : i < l.length) : (l.map score).getD i 0 = score (l.getD i "") := by
  rw [List.getD_eq_getElem _ _ (by simpa using hi), List.getD_eq_getElem _ _ hi,
    List.getElem_map]

theorem firstBest_of_argmax (score : String → ℚ) (l : List String) (h : l ≠ []) :
    IsFirstBest score l (l.getD (argmaxAux (l.map score)).1 "") := by
  have hne : l.map score ≠ [] := by
    simpa using h
  obtain ⟨hlt, hval, hbefore, hall⟩ := argmaxAux_spec (l.map score) hne
  rw [List.length_map] at hlt
  set j := (argmaxAux (l.map score)).1 with hj
  set mx := (argmaxAux (l.map score)).2 with hmx
  have hbest : l.getD j "" = l[j] := List.getD_eq_getElem l "" hlt
  have hscore_best : score (l.getD j "") = mx := by
    rw [← hval, sims_getD_eq hlt]
  refine ⟨l.take j, l.drop (j + 1), ?_, ?_, ?_⟩
  · rw [hbest, ← List.drop_eq_getElem_cons hlt, List.take_append_drop]
  · intro s hs
    rw [hscore_best]
    rcases List.mem_iff_getElem.mp hs with ⟨i, hi, rfl⟩
    have hij : i < j := by
      have := hi
      rw [List.length_take] at this
      omega
    have := hbefore i hij
    rw [sims_getD_eq (by omega)] at this
    rw [List.getElem_take]
    rw [List.getD_eq_getElem _ _ (by omega)] at this
    exact this
  · intro s hs
    rw [hscore_best]
    rcases List.mem_iff_getElem.mp hs with ⟨i, hi, rfl⟩
    have hlen : j + 1 + i < l.length := by
      have := hi
      rw [List.length_drop] at this
      omega
    have := hall (j + 1 + i) (by rw [List.length_map]; omega)
    rw [sims_getD_eq (by omega)] at this
    rw [List.getElem_drop]
    rw [List.getD_eq_getElem _ _ (by omega)] at this
    exact this

/-- C1: whenever Tier 2 (with a total per-pair scorer and a positive
threshold) or Tier 3 emits a match for a sentence of document A, the
matched sentence of document B attains the maximum similarity score over
all of B's sentences of trimmed length at least 10, and among the
sentences attaining it, it is the first in B's sentence order.  The Tier 2
scorer compares the preprocessed sentence pair, the Tier 3 scorer the raw
sentence pair, exactly as in the code. -/
theorem tier_alignment_first_best (tok : String → List String)
    (sim2 : String → String → ℚ) (sim3 : String → String → ℚ)
    (t1 t2 : String) (thr2 thr3 : ℚ) (hthr2 : 0 < thr2) :
    (∀ m ∈ (level2_sentence_level tok (fun a b => some (sim2 a b)) t1 t2
        thr2).plagiarized_sentences,
      IsFirstBest (fun s => sim2 (preprocess_text m.sentence) (preprocess_text s))
        ((tok t2).filter (fun s => 10 ≤ (pyStrip s).length)) m.matching_sentence) ∧
    (∀ m ∈ (level3_semantic_similarity tok (some sim3) t1 t2
        thr3).semantic_plagiarized_sentences,
      IsFirstBest (fun s => sim3 m.sentence s)
        ((tok t2).filter (fun s => 10 ≤ (pyStrip s).length)) m.matching_sentence) := by
  constructor
  · intro m hm
    rcases mem_level2_inv hm with ⟨i, s1, hmem, h10, hthr, rfl⟩
    show IsFirstBest (fun s => sim2 (preprocess_text s1) (preprocess_text s))
      ((tok t2).filter (fun s => 10 ≤ (pyStrip s).length))
      (bestMatch (fun a b => some (sim2 a b)) (preprocess_text s1) (tok t2)).2
    have hB : bestMatch (fun a b => some (sim2 a b)) (preprocess_text s1) (tok t2) =
        (tok t2).foldl (bestMatchStep (fun a b => some (sim2 a b)) (preprocess_text s1))
          (0, "") := rfl
    rcases foldl_bestMatchStep_total_spec sim2 (preprocess_text s1) (tok t2) (0, "")
      with ⟨heq, _⟩ | ⟨l₁, l₂, hsplit, hscore, hpos, hl₁, hl₂⟩
    · exfalso
      rw [hB, heq] at hthr
      simp only [] at hthr
      linarith
    · rw [filter_valid_eq] at hsplit
      rw [hB]
      refine ⟨l₁, l₂, hsplit, ?_, ?_⟩
      · intro s hs
        have := hl₁ s hs
        rw [← hscore] at this
        exact this
      · intro s hs
        have := hl₂ s hs
        rw [← hscore] at this
        exact this
  · intro m hm
    rcases mem_level3_inv hm with ⟨hne, i, s1, hmem, h10, hthr, rfl⟩
    show IsFirstBest (fun s => sim3 s1 s)
      ((tok t2).filter (fun s => 10 ≤ (pyStrip s).length))
      (((tok t2).filter (fun s => 10 ≤ (pyStrip s).length)).getD
        (argmaxAux (((tok t2).filter (fun s => 10 ≤ (pyStrip s).length)).map
          (fun s2 => sim3 s1 s2))).1 "")
    have hvne : (tok t2).filter (fun s => 10 ≤ (pyStrip s).length) ≠ [] := by
      intro hnil
      rw [hnil] at hne
      simp at hne
    exact firstBest_of_argmax (fun s => sim3 s1 s)
      ((tok t2).filter (fun s => 10 ≤ (pyStrip s).length)) hvne

/-- Witness for C1 at a concrete input. -/
theorem tier_alignment_first_best_witness :
    (0 : ℚ) < 7/10 ∧
    ({ sentence := "This is sentence alpha.", similarity := 100,
       matching_sentence := "This is sentence beta.", position := 1 } ∈
      (level2_sentence_level
        (fun t => if t = "docA" then ["This is sentence alpha."]
                  else ["This is sentence beta.", "This is sentence gamma."])
        (fun a b => some ((fun _ _ => (1:ℚ)) a b)) "docA" "docB" (7/10)).plagiarized_sentences) ∧
    IsFirstBest (fun s => (fun _ _ => (1:ℚ)) (preprocess_text "This is sentence alpha.") (preprocess_text s))
      (((fun t => if t = "docA" then ["This is sentence alpha."]
          else ["This is sentence beta.", "This is sentence gamma."]) "docB").filter
        (fun s => 10 ≤ (pyStrip s).length))
      "This is sentence beta." :=
  ⟨by decide, by decide,
    (tier_alignment_first_best
      (fun t => if t = "docA" then ["This is sentence alpha."]
                else ["This is sentence beta.", "This is sentence gamma."])
      (fun _ _ => (1:ℚ)) (fun _ _ => (1:ℚ)) "docA" "docB" (7/10) (3/4) (by decide)).1
      { sentence := "This is sentence alpha.", similarity := 100,
        matching_sentence := "This is sentence beta.", position := 1 }
      (by decide)⟩

/-- C5: when the sentence-transformer model failed to initialize
(`sentence_model = none`), Tier 3 returns its method name, an explanatory
`error` field and an empty match list without failing, and the
`/check-plagiarism` endpoint still runs Tiers 1 and 2 and answers 200 with
a summary whose `semantic_plagiarized_sentences` count is 0. -/
theorem model_unavailable_degrades (tok : String → List String)
    (sim2 : String → String → Option ℚ) (fields : List (String × String))
    (hfe : fields.isEmpty = false)
    (h1 : (pyStrip (jsonGetD fields "text1")).isEmpty = false)
    (h2 : (pyStrip (jsonGetD fields "text2")).isEmpty = false)
    (hl1 : ¬(pyStrip (jsonGetD fields "text1")).length < 10)
    (hl2 : ¬(pyStrip (jsonGetD fields "text2")).length < 10) :
    (∀ t1 t2 thr, level3_semantic_similarity tok none t1 t2 thr =
      { method := "Semantic Similarity (Transformer)",
        semantic_plagiarized_sentences := [],
        total_sentences := none, semantic_plagiarized_count := none,
        threshold := none, explanation := none,
        error := some "Sentence transformer model not available" }) ∧
    (check_plagiarism tok sim2 none (some fields)).1 = 200 ∧
    ∃ resp, (check_plagiarism tok sim2 none (some fields)).2 = .ok resp ∧
      resp.summary.semantic_plagiarized_sentences = 0 ∧
      resp.level1_basic = level1_tfidf_similarity
        (pyStrip (jsonGetD fields "text1")) (pyStrip (jsonGetD fields "text2")) ∧
      resp.level2_sentence = level2_sentence_level tok sim2
        (pyStrip (jsonGetD fields "text1")) (pyStrip (jsonGetD fields "text2")) (7/10) ∧
      resp.level3_semantic = level3_semantic_similarity tok none
        (pyStrip (jsonGetD fields "text1")) (pyStrip (jsonGetD fields "text2")) (3/4) := by
  refine ⟨fun t1 t2 thr => rfl, ?_⟩
  have hred : check_plagiarism tok sim2 none (some fields) =
      (200, .ok
        { success := true,
          level1_basic := level1_tfidf_similarity
            (pyStrip (jsonGetD fields "text1")) (pyStrip (jsonGetD fields "text2")),
          level2_sentence := level2_sentence_level tok sim2
            (pyStrip (jsonGetD fields "text1")) (pyStrip (jsonGetD fields "text2")) (7/10),
          level3_semantic := level3_semantic_similarity tok none
            (pyStrip (jsonGetD fields "text1")) (pyStrip (jsonGetD fields "text2")) (3/4),
          summary :=
            { overall_similarity := (level1_tfidf_similarity
                (pyStrip (jsonGetD fields "text1")) (pyStrip (jsonGetD fields "text2"))).similarity_percentage,
              total_plagiarized_sentences := (level2_sentence_level tok sim2
                (pyStrip (jsonGetD fields "text1")) (pyStrip (jsonGetD fields "text2")) (7/10)).plagiarized_count,
              semantic_plagiarized_sentences := 0,
              text1_length := (pyStrip (jsonGetD fields "text1")).length,
              text2_length := (pyStrip (jsonGetD fields "text2")).length } }) := by
    unfold check_plagiarism
    dsimp only
    rw [if_neg (by simp [hfe])]
    rw [if_neg (by simp [h1, h2])]
    rw [if_neg (by simp [hl1, hl2])]
    rfl
  rw [hred]
  exact ⟨rfl, _, rfl, rfl, rfl, rfl, rfl⟩

/-- Witness for C5 at a concrete input. -/
theorem model_unavailable_degrades_witness :
    ((([("text1", "This is a long test sentence."),
        ("text2", "Another long test sentence here.")] : List (String × String)).isEmpty = false) ∧
      (pyStrip (jsonGetD [("text1", "This is a long test sentence."),
        ("text2", "Another long test sentence here.")] "text1")).isEmpty = false) ∧
    (check_plagiarism (fun _ => []) (fun _ _ => some 0) none
      (some [("text1", "This is a long test sentence."),
             ("text2", "Another long test sentence here.")])).1 = 200 :=
  ⟨⟨by decide, by decide⟩,
    (model_unavailable_degrades (fun _ => []) (fun _ _ => some 0)
      [("text1", "This is a long test sentence."),
       ("text2", "Another long test sentence here.")]
      (by decide) (by decide) (by decide) (by decide) (by decide)).2.1⟩

/-- C6: if either document normalizes to an empty token set and the
vectorization consequently fails (sklearn's `fit_transform` raises its
empty-vocabulary `ValueError` exactly when neither document contributes a
token), Tier 1 returns `similarity_percentage = 0` together with an
`error` field; the fault is caught inside the function — in the model,
`level1_tfidf_similarity` is a total function and this is its value. -/
theorem level1_empty_vocabulary (t1 t2 : String)
    (_hempty : sklearnTokenize (preprocess_text t1) = [] ∨
      sklearnTokenize (preprocess_text t2) = [])
    (hfail : sklearnTokenize (preprocess_text t1) ++
      sklearnTokenize (preprocess_text t2) = []) :
    (level1_tfidf_similarity t1 t2).similarity_percentage = 0 ∧
    (level1_tfidf_similarity t1 t2).error.isSome := by
  unfold level1_tfidf_similarity
  dsimp only
  rw [if_pos hfail]
  exact ⟨rfl, rfl⟩

/-- Witness for C6 at a concrete input. -/
theorem level1_empty_vocabulary_witness :
    (sklearnTokenize (preprocess_text "!!!!!!!!!!") = [] ∨
      sklearnTokenize (preprocess_text "??????????") = []) ∧
    (sklearnTokenize (preprocess_text "!!!!!!!!!!") ++
      sklearnTokenize (preprocess_text "??????????") = []) ∧
    (level1_tfidf_similarity "!!!!!!!!!!" "??????????").similarity_percentage = 0 ∧
    (level1_tfidf_similarity "!!!!!!!!!!" "??????????").error.isSome := by
  have ha : sklearnTokenize (preprocess_text "!!!!!!!!!!") = [] := by
    simp +decide [sklearnTokenize, preprocess_text, pyWords, pyUnwords, runsBy]
  have hb : sklearnTokenize (preprocess_text "??????????") = [] := by
    simp +decide [sklearnTokenize, preprocess_text, pyWords, pyUnwords, runsBy]
  exact ⟨Or.inl ha, by rw [ha, hb]; rfl,
    level1_empty_vocabulary "!!!!!!!!!!" "??????????" (Or.inl ha) (by rw [ha, hb]; rfl)⟩

/-! ## Helper lemmas: Tier 1 cosine geometry -/

theorem dotR_self_eq (v : List ℝ) : dotR v v = (v.map (fun x => x * x)).sum := by
  induction v with
  | nil => rfl
  | cons a v ih =>
    simp only [dotR, List.zipWith_cons_cons, List.map_cons, List.sum_cons] at *
    rw [ih]

theorem dotR_self_nonneg (v : List ℝ) : 0 ≤ dotR v v := by
  rw [dotR_self_eq]
  apply List.sum_nonneg
  intro x hx
  rcases List.mem_map.mp hx with ⟨y, _, rfl⟩
  exact mul_self_nonneg y

theorem dotR_map_div (u w : List ℝ) (n : ℝ) :
    dotR (u.map (fun x => x / n)) (w.map (fun x => x / n)) = dotR u w / n ^ 2 := by
  induction u generalizing w with
  | nil => simp [dotR]
  | cons a u ih =>
    cases w with
    | nil => simp [dotR]
    | cons b w =>
      simp only [List.map_cons, dotR, List.zipWith_cons_cons, List.sum_cons] at *
      rw [ih w]
      rw [div_mul_div_comm, add_div, sq]

theorem l2normalize_self_dot {v : List ℝ} (hv : 0 < dotR v v) :
    dotR (l2normalize v) (l2normalize v) = 1 := by
  have hn : l2norm v ≠ 0 := by
    unfold l2norm
    exact ne_of_gt (Real.sqrt_pos.mpr hv)
  unfold l2normalize
  rw [if_neg hn]
  rw [show (fun x => x / l2norm v) = (fun x => x / l2norm v) from rfl]
  rw [dotR_map_div]
  unfold l2norm
  rw [Real.sq_sqrt (dotR_self_nonneg v)]
  exact div_self (ne_of_gt hv)

theorem cosine_normalize_self {v : List ℝ} (hv : 0 < dotR v v) :
    cosineSimilarity (l2normalize v) (l2normalize v) = 1 := by
  unfold cosineSimilarity
  have h1 := l2normalize_self_dot hv
  exact l2normalize_self_dot (by rw [h1]; exact one_pos)

theorem mem_vocabList_self {tok : List String} {w : String} :
    w ∈ vocabList tok tok ↔ w ∈ tok := by
  unfold vocabList
  rw [List.mem_insertionSort, List.mem_dedup, List.mem_append, or_self]

theorem idf_self {tok : List String} {w : String} (hw : w ∈ tok) :
    idf tok tok w = 1 := by
  unfold idf docFreq
  rw [if_pos hw]
  norm_num [Real.log_one]

theorem tfidfRawRow_self_dot_pos {tok : List String} (h : tok ≠ []) :
    0 < dotR (tfidfRawRow tok tok tok) (tfidfRawRow tok tok tok) := by
  have hpos : ∀ x ∈ tfidfRawRow tok tok tok, 0 < x := by
    intro x hx
    rcases List.mem_map.mp hx with ⟨w, hw, rfl⟩
    have hwt : w ∈ tok := mem_vocabList_self.mp hw
    rw [idf_self hwt, mul_one]
    exact_mod_cast List.count_pos_iff.mpr hwt
  have hne : tfidfRawRow tok tok tok ≠ [] := by
    rcases List.exists_mem_of_ne_nil tok h with ⟨w, hw⟩
    have : (tok.count w : ℝ) * idf tok tok w ∈ tfidfRawRow tok tok tok :=
      List.mem_map.mpr ⟨w, mem_vocabList_self.mpr hw, rfl⟩
    exact List.ne_nil_of_mem this
  rw [dotR_self_eq]
  apply List.sum_pos
  · intro x hx
    rcases List.mem_map.mp hx with ⟨y, hy, rfl⟩
    exact mul_pos (hpos y hy) (hpos y hy)
  · simpa using hne

/-- C4, counterexample: for the 10-character text `"!!!!!!!!!!"`, which
normalizes to an empty token set, Tier 1 applied to (text, text) reports
similarity 0 (with an error field), not 100. -/
theorem level1_self_similarity_counterexample :
    ¬((level1_tfidf_similarity "!!!!!!!!!!" "!!!!!!!!!!").similarity_percentage = 100) := by
  have ha : sklearnTokenize (preprocess_text "!!!!!!!!!!") = [] := by
    simp +decide [sklearnTokenize, preprocess_text, pyWords, pyUnwords, runsBy]
  have h : (level1_tfidf_similarity "!!!!!!!!!!" "!!!!!!!!!!").similarity_percentage = 0 := by
    unfold level1_tfidf_similarity
    dsimp only
    rw [if_pos (by rw [ha]; rfl)]
  rw [h]
  norm_num

/-- C4 (amended): for every input text whose preprocessed form yields at
least one token (a run of at least two word characters), Tier 1 applied
to (text, text) returns `similarity_percentage = 100` exactly; texts with
no tokens instead take the empty-vocabulary error path and report 0. -/
theorem level1_self_similarity_amended (t : String)
    (h : sklearnTokenize (preprocess_text t) ≠ []) :
    (level1_tfidf_similarity t t).similarity_percentage = 100 := by
  unfold level1_tfidf_similarity
  dsimp only
  rw [if_neg (by simp [h])]
  have hpos := tfidfRawRow_self_dot_pos h
  have hcos : cosineSimilarity
      (tfidfVector (sklearnTokenize (preprocess_text t)) (sklearnTokenize (preprocess_text t))
        (sklearnTokenize (preprocess_text t)))
      (tfidfVector (sklearnTokenize (preprocess_text t)) (sklearnTokenize (preprocess_text t))
        (sklearnTokenize (preprocess_text t))) = 1 := by
    unfold tfidfVector
    exact cosine_normalize_self hpos
  rw [hcos]
  unfold pyRound2R
  rw [show ((1:ℝ) * 100 * 100) = ((10000:ℤ):ℝ) by norm_num, round_intCast]
  norm_num

/-- Witness for C4's amended theorem at a concrete input. -/
theorem level1_self_similarity_amended_witness :
    sklearnTokenize (preprocess_text "Hello world.") ≠ [] ∧
    (level1_tfidf_similarity "Hello world." "Hello world.").similarity_percentage = 100 := by
  have ha : sklearnTokenize (preprocess_text "Hello world.") = ["hello", "world"] := by
    simp +decide [sklearnTokenize, preprocess_text, pyWords, pyUnwords, runsBy]
  exact ⟨by rw [ha]; simp,
    level1_self_similarity_amended "Hello world." (by rw [ha]; simp)⟩

/-! ## Helper lemmas: Tier 1 symmetry -/

theorem dotR_comm (u v : List ℝ) : dotR u v = dotR v u := by
  induction u generalizing v with
  | nil => cases v <;> rfl
  | cons a u ih =>
    cases v with
    | nil => rfl
    | cons b v =>
      simp only [dotR, List.zipWith_cons_cons, List.sum_cons] at *
      rw [ih v, mul_comm]

theorem cosineSimilarity_comm (u v : List ℝ) :
    cosineSimilarity u v = cosineSimilarity v u := by
  unfold cosineSimilarity
  exact dotR_comm _ _

theorem vocabList_comm (tok1 tok2 : List String) :
    vocabList tok1 tok2 = vocabList tok2 tok1 := by
  unfold vocabList
  exact List.eq_of_perm_of_sorted
    ((List.perm_insertionSort _ _).trans
      ((List.perm_append_comm.dedup).trans (List.perm_insertionSort _ _).symm))
    (List.sorted_insertionSort _ _) (List.sorted_insertionSort _ _)

theorem docFreq_comm (tok1 tok2 : List String) (w : String) :
    docFreq tok1 tok2 w = docFreq tok2 tok1 w := by
  unfold docFreq
  exact add_comm _ _

theorem idf_comm (tok1 tok2 : List String) (w : String) :
    idf tok1 tok2 w = idf tok2 tok1 w := by
  unfold idf
  rw [docFreq_comm]

theorem tfidfRawRow_comm (tok1 tok2 toks : List String) :
    tfidfRawRow tok1 tok2 toks = tfidfRawRow tok2 tok1 toks := by
  unfold tfidfRawRow
  rw [vocabList_comm]
  apply List.map_congr_left
  intro w _
  rw [idf_comm]

theorem tfidfVector_comm (tok1 tok2 toks : List String) :
    tfidfVector tok1 tok2 toks = tfidfVector tok2 tok1 toks := by
  unfold tfidfVector
  rw [tfidfRawRow_comm]

/-- C7: Tier 1 is symmetric: the `similarity_percentage` reported for the
pair (A, B) equals the one reported for (B, A).  The vocabulary, the
document frequencies and hence the tf-idf rows are unchanged under
swapping the pair, the cosine is commutative, and the empty-vocabulary
error branch is taken for (A, B) exactly when it is taken for (B, A). -/
theorem level1_symmetric (t1 t2 : String) :
    (level1_tfidf_similarity t1 t2).similarity_percentage =
      (level1_tfidf_similarity t2 t1).similarity_percentage := by
  unfold level1_tfidf_similarity
  dsimp only
  by_cases hc : sklearnTokenize (preprocess_text t1) ++ sklearnTokenize (preprocess_text t2) = []
  · have hc2 : sklearnTokenize (preprocess_text t2) ++ sklearnTokenize (preprocess_text t1) = [] := by
      rw [List.append_eq_nil] at hc ⊢
      exact ⟨hc.2, hc.1⟩
    rw [if_pos hc, if_pos hc2]
  · have hc2 : ¬(sklearnTokenize (preprocess_text t2) ++ sklearnTokenize (preprocess_text t1) = []) := by
      rw [List.append_eq_nil] at hc ⊢
      tauto
    rw [if_neg hc, if_neg hc2]
    show pyRound2R _ = pyRound2R _
    rw [tfidfVector_comm (sklearnTokenize (preprocess_text t2)) (sklearnTokenize (preprocess_text t1))
      (sklearnTokenize (preprocess_text t2))]
    rw [tfidfVector_comm (sklearnTokenize (preprocess_text t2)) (sklearnTokenize (preprocess_text t1))
      (sklearnTokenize (preprocess_text t1))]
    rw [cosineSimilarity_comm]
